import Mathlib

/-!
Verification of the repository consisting of
`examples/functional_api.ipynb` (a tutorial notebook for Composer's
functional API) and `.github/workflows/pr-gpu.yaml` (a GPU-test CI
workflow), against its natural-language specification.

The development shallow-embeds both artifacts:
  * the YAML workflow becomes a Lean record holding its declarative fields,
    with the GitHub-Actions expressions of the `concurrency` block embedded
    as Lean functions on their inputs;
  * the notebook's Python cells become (a) a statement-level syntax tree
    used for claims about the absence of constructs, (b) a denotational
    model of `train_and_eval` parametric over the external deep-learning
    framework, producing a trace of the operations it performs, and (c) a
    small store model of the top-level cells used for the in-place
    model-surgery claim.
-/

namespace Spec2Proof

/-! ## CI workflow: `.github/workflows/pr-gpu.yaml`

The file declares a name, two triggers (`pull_request_target:` and
`workflow_dispatch:`), a `concurrency` block, and one job `pytest-gpu`
with a one-entry matrix, a repository-owner guard, fixed inputs and a
secrets passthrough.  The records below transcribe those fields. -/

/-- One entry of the job's `strategy.matrix.include` list. -/
structure MatrixEntry where
  name : String
  container : String
  markers : String
  pytest_command : String
  composer_package_name : String
  deriving DecidableEq, Repr

/-- The declarative fields of the `pr-gpu.yaml` workflow. -/
structure Workflow where
  name : String
  /-- `on.pull_request_target` is present. -/
  on_pull_request_target : Bool
  /-- `on.workflow_dispatch` is present. -/
  on_workflow_dispatch : Bool
  /-- `jobs.pytest-gpu.uses`. -/
  job_uses : String
  /-- branches of the job's `if:` guard, `github.repository_owner == 'mosaicml'`:
      the required owner. -/
  job_if_repository_owner : String
  matrix : List MatrixEntry
  /-- fixed `with:` input `mcloud-timeout`. -/
  mcloud_timeout : Nat
  /-- fixed `with:` input `python-version`. -/
  python_version : String
  /-- names of the secrets passed through in `secrets:`. -/
  secrets_passed : List String
  deriving DecidableEq, Repr

/-- The workflow as written in `src/.github/workflows/pr-gpu.yaml`. -/
def prGpu : Workflow where
  name := "PR GPU tests"
  on_pull_request_target := true
  on_workflow_dispatch := true
  job_uses := "./.github/workflows/pytest-gpu.yaml"
  job_if_repository_owner := "mosaicml"
  matrix := [{ name := "gpu-3.10-2.1"
               container := "mosaicml/pytorch:2.1.0_cu121-python3.10-ubuntu20.04"
               markers := "not daily and not remote and gpu and (doctest or not doctest)"
               pytest_command := "coverage run -m pytest"
               composer_package_name := "mosaicml" }]
  mcloud_timeout := 1500
  python_version := "3.9"
  secrets_passed := ["MCLOUD_API_KEY"]

/-- The GitHub expression of `concurrency.group`
(github.workflow, a dash, then `github.event.pull_request.number || github.ref`):
the workflow name, a dash, then the pull-request number when the event
carries one (`||` takes the first truthy operand), otherwise the ref. -/
def concurrencyGroup (workflow : String) (prNumber : Option Nat) (ref : String) : String :=
  workflow ++ "-" ++ (match prNumber with
    | some n => toString n
    | none => ref)

/-- The GitHub expression
`github.ref != 'refs/heads/main' && github.ref != 'refs/heads/dev'`
of `concurrency.cancel-in-progress`. -/
def cancelInProgress (ref : String) : Bool :=
  (ref != "refs/heads/main") && (ref != "refs/heads/dev")

/-- The declarative surface that claim C4 asserts: triggers on pull
requests and nothing else — in particular no `workflow_dispatch` trigger,
no repository-owner guard, and no fixed job inputs beyond the matrix
fields and the secret passthrough.  (Stated over the embedded record so
it can be refuted against the file as written.) -/
def claimedSurfaceC4 : Prop :=
  prGpu.on_pull_request_target = true ∧
  prGpu.on_workflow_dispatch = false ∧
  prGpu.job_if_repository_owner = "" ∧
  (∃ e, prGpu.matrix = [e]) ∧
  prGpu.secrets_passed = ["MCLOUD_API_KEY"]

/-! ## The notebook's training loop

`train_and_eval(model, train_loader, test_loader)` from
`examples/functional_api.ipynb`:

  * `torch.manual_seed(42)`; device selection; `model = model.to(device)`;
    `opt = torch.optim.Adam(model.parameters())`;
  * `for epoch in range(num_epochs)`: train over the minibatches of
    `train_loader` (forward, cross-entropy loss, `loss.backward()`,
    `opt.step()`, `opt.zero_grad()`), then evaluate over `test_loader`
    (forward, count correct predictions and examples) and print
    `acc_percent = 100 * num_right / eval_size`.

The embedding is parametric over the external framework's operations
(forward pass, gradient of the cross-entropy loss, gradient accumulation,
Adam's initial state and step), which the repository does not define.
Device movement (`.to(device)`) is the identity on values here, the
progress bar is a no-op, and every operation the loop performs is logged
in an event trace; the printed accuracy lines are collected as a list of
`Option ℚ` (`none` marks Python's `ZeroDivisionError` on an empty test
loader; rationals stand in for floats, whose rounding the claims do not
touch). `num_epochs` is the notebook's module-level binding that the
function reads; it is passed to the embedding as an explicit parameter so
that statements can vary it. -/

/-- One operation performed by the training loop, in program order. -/
inductive Ev
  | manualSeed (n : Nat)
  | epochBegin (k : Nat)
  | modelTrainMode
  | forwardTrain
  | crossEntropyLoss
  | lossBackward
  | optStep
  | optZeroGrad
  | modelEvalMode
  | forwardEval
  | printAccuracy (k : Nat)
  deriving DecidableEq, Repr

/-- A minibatch `(X, y)` yielded by a dataloader: a list of inputs and the
matching list of integer class labels. -/
structure TorchBatch (Inp : Type) where
  X : List Inp
  y : List Nat
  deriving DecidableEq, Repr

/-- The external framework's operations used by `train_and_eval`, left
abstract: a forward pass producing per-class scores, the gradient of the
cross-entropy loss on a batch (`loss.backward()`), gradient accumulation
into `.grad`, and Adam's initial optimizer state and update step. -/
structure Framework (Inp Par Grad OptSt : Type) where
  forward : Par → Inp → List ℚ
  lossGrad : Par → List Inp → List Nat → Grad
  accumGrad : Option Grad → Grad → Grad
  adamInit : Par → OptSt
  adamStep : OptSt → Par → Grad → OptSt × Par

/-- The mutable state the loop threads: the model parameters, the
optimizer's internal state, and the accumulated gradient (`none` after
`opt.zero_grad()` and before any `backward`). -/
structure TrainState (Par Grad OptSt : Type) where
  par : Par
  opt : OptSt
  grad : Option Grad
  deriving DecidableEq, Repr

/-- Index of the first maximal score, as `y_hat.argmax(dim=1)` computes
per row (ties resolved to the first maximum). -/
def argmaxIdx (scores : List ℚ) : Nat :=
  (List.range scores.length).foldl
    (fun best i => if scores.getD best 0 < scores.getD i 0 then i else best) 0

/-- `(y_hat.argmax(dim=1) == y).sum().item()` for one batch: the number
of positions whose predicted class equals the label. -/
def batchNumRight {Inp Par Grad OptSt : Type} (F : Framework Inp Par Grad OptSt)
    (p : Par) (b : TorchBatch Inp) : Nat :=
  (((b.X.map (F.forward p)).map argmaxIdx).zip b.y).countP (fun pr => pr.1 == pr.2)

/-- The body of the training loop for one minibatch:
`y_hat = model(X)`, `loss = F.cross_entropy(y_hat, y)`,
`loss.backward()`, `opt.step()`, `opt.zero_grad()`, logging each
operation. -/
def trainBatch {Inp Par Grad OptSt : Type} (F : Framework Inp Par Grad OptSt)
    (st : TrainState Par Grad OptSt) (b : TorchBatch Inp) :
    TrainState Par Grad OptSt × List Ev :=
  let _yhat := b.X.map (F.forward st.par)
  let g := F.lossGrad st.par b.X b.y
  let grad2 := F.accumGrad st.grad g
  let stepped := F.adamStep st.opt st.par grad2
  (⟨stepped.2, stepped.1, none⟩,
   [Ev.forwardTrain, Ev.crossEntropyLoss, Ev.lossBackward, Ev.optStep, Ev.optZeroGrad])

/-- `for X, y in train_loader: ...` — the training phase of one epoch. -/
def trainPhase {Inp Par Grad OptSt : Type} (F : Framework Inp Par Grad OptSt)
    (st : TrainState Par Grad OptSt) :
    List (TorchBatch Inp) → TrainState Par Grad OptSt × List Ev
  | [] => (st, [])
  | b :: rest =>
    let r := trainBatch F st b
    let r2 := trainPhase F r.1 rest
    (r2.1, r.2 ++ r2.2)

/-- Result of the evaluation loop: the threaded train state and the two
counters `num_right` and `eval_size`, plus the logged events. -/
structure EvalResult (Par Grad OptSt : Type) where
  state : TrainState Par Grad OptSt
  num_right : Nat
  eval_size : Nat
  events : List Ev
  deriving Repr

/-- `for X, y in test_loader: ...` — the evaluation loop of one epoch,
starting from counters `num_right = nr` and `eval_size = es`.  Its body
reads the parameters for the forward pass and updates only the two
counters, as the notebook's loop does. -/
def evalLoop {Inp Par Grad OptSt : Type} (F : Framework Inp Par Grad OptSt)
    (st : TrainState Par Grad OptSt) (nr es : Nat) :
    List (TorchBatch Inp) → EvalResult Par Grad OptSt
  | [] => ⟨st, nr, es, []⟩
  | b :: rest =>
    let r := evalLoop F st (nr + batchNumRight F st.par b) (es + b.y.length) rest
    ⟨r.state, r.num_right, r.eval_size, Ev.forwardEval :: r.events⟩

/-- `acc_percent = 100 * num_right / eval_size`: `none` models Python's
`ZeroDivisionError` when `eval_size` is zero. -/
def acc_percent (num_right eval_size : Nat) : Option ℚ :=
  if eval_size = 0 then none
  else some (100 * (num_right : ℚ) / (eval_size : ℚ))

/-- One iteration of `for epoch in range(num_epochs)`: banner,
`model.train()`, the training phase, `model.eval()`, the evaluation loop
from zeroed counters, and the printed accuracy. -/
def runEpoch {Inp Par Grad OptSt : Type} (F : Framework Inp Par Grad OptSt)
    (k : Nat) (st : TrainState Par Grad OptSt)
    (train test : List (TorchBatch Inp)) :
    TrainState Par Grad OptSt × Option ℚ × List Ev :=
  let t := trainPhase F st train
  let e := evalLoop F t.1 0 0 test
  (e.state, acc_percent e.num_right e.eval_size,
   Ev.epochBegin k :: Ev.modelTrainMode ::
     (t.2 ++ Ev.modelEvalMode :: (e.events ++ [Ev.printAccuracy k])))

/-- The epoch loop over the values of `range(num_epochs)`, collecting the
printed accuracies in order. -/
def epochLoop {Inp Par Grad OptSt : Type} (F : Framework Inp Par Grad OptSt)
    (train test : List (TorchBatch Inp)) :
    List Nat → TrainState Par Grad OptSt →
    TrainState Par Grad OptSt × List (Option ℚ) × List Ev
  | [], st => (st, [], [])
  | k :: ks, st =>
    let r := runEpoch F k st train test
    let rest := epochLoop F train test ks r.1
    (rest.1, r.2.1 :: rest.2.1, r.2.2 ++ rest.2.2)

/-- The notebook's `train_and_eval(model, train_loader, test_loader)`.
`num_epochs` is the module-level binding the function reads (`for epoch
in range(num_epochs)`), made explicit here.  Returns the final train
state, the printed accuracy of each epoch, and the full operation
trace. -/
def train_and_eval {Inp Par Grad OptSt : Type} (F : Framework Inp Par Grad OptSt)
    (num_epochs : Nat) (model : Par) (train_loader test_loader : List (TorchBatch Inp)) :
    TrainState Par Grad OptSt × List (Option ℚ) × List Ev :=
  let st0 : TrainState Par Grad OptSt := ⟨model, F.adamInit model, none⟩
  let r := epochLoop F train_loader test_loader (List.range num_epochs) st0
  (r.1, r.2.1, Ev.manualSeed 42 :: r.2.2)

/-- The per-minibatch operations of the training phase, in the order the
loop body performs them. -/
def specBatchOps : List Ev :=
  [Ev.forwardTrain, Ev.crossEntropyLoss, Ev.lossBackward, Ev.optStep, Ev.optZeroGrad]

/-- The operations of one epoch over `nTrain` training minibatches and
`nTest` test minibatches. -/
def epochEvents (k nTrain nTest : Nat) : List Ev :=
  Ev.epochBegin k :: Ev.modelTrainMode ::
    (List.flatten (List.replicate nTrain specBatchOps) ++
      Ev.modelEvalMode :: (List.replicate nTest Ev.forwardEval ++ [Ev.printAccuracy k]))

/-- The schedule the spec describes for `train_and_eval`, written from
the spec's words: a conventional single-threaded synchronous sequence —
for each of `num_epochs` epochs, iterate the training minibatches
(forward pass, cross-entropy loss, backpropagation, optimizer step, in
that order, once per minibatch), then the evaluation passes, with no
interleaving across epochs or minibatches. -/
def sequentialTrainingTrace (num_epochs nTrain nTest : Nat) : List Ev :=
  Ev.manualSeed 42 ::
    List.flatten ((List.range num_epochs).map (fun k => epochEvents k nTrain nTest))

/-- A concrete instantiation of the abstract framework on unit types,
used to evaluate the model on concrete inputs. -/
def unitFramework : Framework Unit Unit Unit Unit where
  forward := fun _ _ => []
  lossGrad := fun _ _ _ => ()
  accumGrad := fun _ _ => ()
  adamInit := fun _ => ()
  adamStep := fun _ _ _ => ((), ())

/-! ## Model structure and the squeeze-excite surgery

The notebook's `Net` is a fixed small convolutional network; its
`forward` applies, in order: `conv1`, `relu`, `conv2`, `norm`
(BatchNorm2d), `relu`, pool, flatten, `fc1`, `relu`, `fc2`, `relu`,
`fc3`.  The model structure is embedded as the list of computation
layers in forward order, so that inserting a module after a layer is an
operation on the list. -/

/-- One layer of the model graph, with its channel/feature sizes. -/
inductive Layer
  | conv2d (inCh outCh : Nat)
  | batchNorm2d (ch : Nat)
  | relu
  | adaptiveAvgPool2d
  | flatten
  | linear (inF outF : Nat)
  | squeezeExcite (channels latentChannels : Nat)
  deriving DecidableEq, Repr

/-- The layers of a freshly constructed `Net()`, in forward order, with
the sizes of the notebook's constructor: `Conv2d(3, 16)`,
`Conv2d(16, 32)`, `BatchNorm2d(32)`, `AdaptiveAvgPool2d(1)`,
`Linear(32, 128)`, `Linear(128, 64)`, `Linear(64, 10)`. -/
def netLayers : List Layer :=
  [Layer.conv2d 3 16, Layer.relu,
   Layer.conv2d 16 32, Layer.batchNorm2d 32, Layer.relu,
   Layer.adaptiveAvgPool2d, Layer.flatten,
   Layer.linear 32 128, Layer.relu,
   Layer.linear 128 64, Layer.relu,
   Layer.linear 64 10]

/-- Modelled from the spec: `cf.apply_squeeze_excite` belongs to the
external Composer library, whose code is not part of this repository.
The spec describes it as consuming a constructed model plus two numeric
configuration parameters — a latent-channel width and a minimum-channel
threshold — and mutating the model by inserting additional computation
(a squeeze-and-excitation module) after qualifying layers; the notebook
adds that it is only added "after convs with a minimum number of
channels", singling out "the larger of the two Conv2d operations" at
`min_channels=16`.  A `Conv2d` therefore qualifies when both its channel
counts reach the threshold; every other layer is left alone. -/
def apply_squeeze_excite (latent_channels min_channels : Nat) :
    List Layer → List Layer
  | [] => []
  | l :: rest =>
    (match l with
     | Layer.conv2d inCh outCh =>
       if min_channels ≤ min inCh outCh then
         [Layer.conv2d inCh outCh, Layer.squeezeExcite outCh latent_channels]
       else
         [l]
     | _ => [l]) ++ apply_squeeze_excite latent_channels min_channels rest

/-! ## The notebook's top-level cells as a store-passing machine

For the in-place-mutation claim the relevant top-level statements are the
two `model = Net()` cells, the three `train_and_eval(model, ...)` calls
and the `cf.apply_squeeze_excite(model, latent_channels=64,
min_channels=16)` call.  Python variables are bindings to heap objects;
the state below keeps a heap of model objects (indexed by allocation
order), the reference currently bound to `model`, and the references
handed to `train_and_eval`, in call order. -/

/-- The notebook-level store: allocated model objects, the binding of the
variable `model`, and the references each `train_and_eval` call
received. -/
structure NbState where
  heap : List (List Layer)
  modelRef : Option Nat
  trainedRefs : List Nat
  deriving DecidableEq, Repr

/-- The top-level statements relevant to the model object's lifecycle. -/
inductive NbCell
  | assignModelNet
  | callTrainAndEval
  | callApplySqueezeExcite (latent minCh : Nat)
  deriving DecidableEq, Repr

/-- Effect of one top-level statement on the store: `model = Net()`
allocates a fresh object and rebinds `model`; `train_and_eval(model, ...)`
passes the currently bound reference; `cf.apply_squeeze_excite(model, ...)`
overwrites the bound object in place (no allocation, no rebinding). -/
def stepCell (st : NbState) : NbCell → NbState
  | NbCell.assignModelNet =>
    { st with heap := st.heap ++ [netLayers], modelRef := some st.heap.length }
  | NbCell.callTrainAndEval =>
    match st.modelRef with
    | some r => { st with trainedRefs := st.trainedRefs ++ [r] }
    | none => st
  | NbCell.callApplySqueezeExcite latent minCh =>
    match st.modelRef with
    | some r =>
      { st with heap := st.heap.set r (apply_squeeze_excite latent minCh (st.heap.getD r [])) }
    | none => st

/-- The notebook's model-touching statements in cell order: the baseline
`model = Net()` and training run, the second `model = Net()` and training
run with the augmented dataloaders, the squeeze-excite surgery, and the
final training run. -/
def notebookCells : List NbCell :=
  [NbCell.assignModelNet, NbCell.callTrainAndEval,
   NbCell.assignModelNet, NbCell.callTrainAndEval,
   NbCell.callApplySqueezeExcite 64 16,
   NbCell.callTrainAndEval]

/-- The store after running a prefix of the notebook's cells. -/
def nbStateAfter (cells : List NbCell) : NbState :=
  cells.foldl stepCell ⟨[], none, []⟩

/-! ## The augmented data pipeline

The notebook's second dataloader cell builds
`shared_transforms = [transforms.ToTensor(), transforms.Normalize((0.5, 0.5, 0.5), (0.5, 0.5, 0.5))]`,
appends the external `cf.colout_batch` for training
(`train_transforms = shared_transforms[:] + [cf.colout_batch]`), and
composes each list with `transforms.Compose`.  The stages are embedded
as tags; their meanings are parameters, every stage consuming and
producing a batch of tensors. -/

/-- One stage of a composed transform pipeline. -/
inductive Tf
  | toTensor
  | normalize (means stds : List ℚ)
  | coloutBatch
  deriving DecidableEq, Repr

/-- `shared_transforms`, used for both train and test data. -/
def shared_transforms : List Tf :=
  [Tf.toTensor, Tf.normalize [1/2, 1/2, 1/2] [1/2, 1/2, 1/2]]

/-- `train_transforms = shared_transforms[:] + [cf.colout_batch]`. -/
def train_transforms : List Tf := shared_transforms ++ [Tf.coloutBatch]

/-- Meanings of the pipeline stages over batches of tensors of type `T`.
`toTensorF` and `normalizeF` belong to torchvision.  `coloutF` is
modelled from the spec: `cf.colout_batch` is external to this repository
and the spec specifies only its boundary — it consumes a batch of input
tensors and returns a batch of transformed tensors, its algorithm being
opaque and owned by the external library. -/
structure TfSem (T : Type) where
  toTensorF : List T → List T
  normalizeF : List ℚ → List ℚ → List T → List T
  coloutF : List T → List T

/-- The batch function a single stage denotes. -/
def applyTf {T : Type} (sem : TfSem T) : Tf → List T → List T
  | Tf.toTensor => sem.toTensorF
  | Tf.normalize m s => sem.normalizeF m s
  | Tf.coloutBatch => sem.coloutF

/-- `transforms.Compose(ts)`: the stages applied left to right. -/
def composeRun {T : Type} (sem : TfSem T) (ts : List Tf) (b : List T) : List T :=
  ts.foldl (fun acc t => applyTf sem t acc) b

/-! ## The notebook's cells as statements

For the error-handling claim the notebook's code cells are transcribed at
statement granularity: each statement records which construct it is and
which library calls its expressions make, in evaluation order.  The
constructs relevant to handling — `try/except`, `while`, `raise`, and
class definitions extending an exception type — are part of the syntax so
that their absence from the transcription is a checkable fact, and so
that an interpreter can show what would happen were they present. -/

/-- The library functions and methods the notebook's cells invoke. -/
inductive PyCall
  | pipInstallMosaicml
  | composeT | toTensorT | normalizeT
  | cifar10Ctor | dataLoaderCtor
  | netCtor | conv2dCtor | batchNorm2dCtor | adaptiveAvgPool2dCtor | linearCtor
  | superInit | moduleApply | reluF | crossEntropyF | flattenF
  | manualSeedF | cudaIsAvailable | toDevice | adamCtor
  | tqdmCtor | setPostfixStr | itemM | lossBackward | optStepM | optZeroGradM
  | modelTrainMode | modelEvalMode | argmaxM | eqCompare | sumM | lenF | printF | rangeF
  | coloutBatchRef | applySqueezeExciteF | trainAndEvalF
  deriving DecidableEq, Repr

/-- A Python exception value, opaque but for an identifying code. -/
structure PyErr where
  code : Nat
  deriving DecidableEq, Repr

mutual

/-- A Python statement of the notebook, at call granularity. -/
inductive Stmt
  | imports
  | assign (calls : List PyCall)
  | exprStmt (calls : List PyCall)
  | funcDef (body : Block)
  | classDef (extendsException : Bool) (body : Block)
  | forLoop (iterCalls : List PyCall) (body : Block)
  | whileLoop (condCalls : List PyCall) (body : Block)
  | tryExcept (body : Block) (handler : Block)
  | raiseStmt
  | ret (calls : List PyCall)

/-- A block of statements (a suite). -/
inductive Block
  | nil
  | cons (s : Stmt) (rest : Block)

end

/-- Builds a block from a list of statements. -/
def blk : List Stmt → Block
  | [] => Block.nil
  | s :: rest => Block.cons s (blk rest)

mutual

/-- Does `p` hold of the statement or of any statement nested in it? -/
def stmtAny (p : Stmt → Bool) : Stmt → Bool
  | Stmt.imports => p Stmt.imports
  | Stmt.assign calls => p (Stmt.assign calls)
  | Stmt.exprStmt calls => p (Stmt.exprStmt calls)
  | Stmt.funcDef body => p (Stmt.funcDef body) || blockAny p body
  | Stmt.classDef b body => p (Stmt.classDef b body) || blockAny p body
  | Stmt.forLoop ic body => p (Stmt.forLoop ic body) || blockAny p body
  | Stmt.whileLoop cc body => p (Stmt.whileLoop cc body) || blockAny p body
  | Stmt.tryExcept body handler =>
    p (Stmt.tryExcept body handler) || blockAny p body || blockAny p handler
  | Stmt.raiseStmt => p Stmt.raiseStmt
  | Stmt.ret calls => p (Stmt.ret calls)

/-- Does `p` hold of any statement of the block, nested ones included? -/
def blockAny (p : Stmt → Bool) : Block → Bool
  | Block.nil => false
  | Block.cons s rest => stmtAny p s || blockAny p rest

end

/-- Is the statement a `try/except`? -/
def isTryStmt : Stmt → Bool
  | Stmt.tryExcept _ _ => true
  | _ => false

/-- Is the statement a `while` loop (the shape a retry loop takes)? -/
def isWhileStmt : Stmt → Bool
  | Stmt.whileLoop _ _ => true
  | _ => false

/-- Is the statement a `raise`? -/
def isRaiseStmt : Stmt → Bool
  | Stmt.raiseStmt => true
  | _ => false

/-- Is the statement a class definition extending an exception type? -/
def isExceptionClass : Stmt → Bool
  | Stmt.classDef b _ => b
  | _ => false

/-- Does the statement handle or manufacture failures itself — a
`try/except` or a `raise`? -/
def isHandling (s : Stmt) : Bool := isTryStmt s || isRaiseStmt s

/-- Runs the calls of one expression left to right; the first failing
call's exception is the outcome. -/
def runCalls (env : PyCall → Except PyErr Unit) : List PyCall → Except PyErr Unit
  | [] => Except.ok ()
  | c :: rest => Except.bind (env c) (fun _ => runCalls env rest)

mutual

/-- Executes one statement under the library behavior `env`.  This model
carries no value state, so every iteration of a loop body has the same
outcome; `iters` says whether loops iterate at all (`0` models empty
iterables).  A `funcDef` runs nothing (its body runs when called); a
`classDef` suite runs at definition time.  A `tryExcept` swallows its
body's exception and runs the handler — the one construct that stops
propagation. -/
def runStmt (env : PyCall → Except PyErr Unit) (iters : Nat) : Stmt → Except PyErr Unit
  | Stmt.imports => Except.ok ()
  | Stmt.assign calls => runCalls env calls
  | Stmt.exprStmt calls => runCalls env calls
  | Stmt.funcDef _ => Except.ok ()
  | Stmt.classDef _ body => runBlock env iters body
  | Stmt.forLoop ic body =>
    Except.bind (runCalls env ic)
      (fun _ => if iters = 0 then Except.ok () else runBlock env iters body)
  | Stmt.whileLoop cc body =>
    Except.bind (runCalls env cc)
      (fun _ => if iters = 0 then Except.ok () else runBlock env iters body)
  | Stmt.tryExcept body handler =>
    match runBlock env iters body with
    | Except.ok _ => Except.ok ()
    | Except.error _ => runBlock env iters handler
  | Stmt.raiseStmt => Except.error ⟨0⟩
  | Stmt.ret calls => runCalls env calls

/-- Executes the statements of a block in order, stopping at the first
exception. -/
def runBlock (env : PyCall → Except PyErr Unit) (iters : Nat) : Block → Except PyErr Unit
  | Block.nil => Except.ok ()
  | Block.cons s rest =>
    Except.bind (runStmt env iters s) (fun _ => runBlock env iters rest)

end

/-- Cell 1: `%pip install mosaicml` (a shell magic; one external action). -/
def cell1 : List Stmt := [Stmt.exprStmt [PyCall.pipInstallMosaicml]]

/-- Cell 2: the imports, `datadir`/`batch_size`, the composed transform,
and the CIFAR-10 datasets and dataloaders. -/
def cell2 : List Stmt :=
  [Stmt.imports, Stmt.imports, Stmt.imports, Stmt.imports, Stmt.imports, Stmt.imports,
   Stmt.assign [],
   Stmt.assign [],
   Stmt.assign [PyCall.toTensorT, PyCall.normalizeT, PyCall.composeT],
   Stmt.assign [PyCall.cifar10Ctor],
   Stmt.assign [PyCall.dataLoaderCtor],
   Stmt.assign [PyCall.cifar10Ctor],
   Stmt.assign [PyCall.dataLoaderCtor]]

/-- Cell 3: `class Net(nn.Module)` — a module subclass (not an exception
type), whose suite defines `__init__` and `forward`. -/
def cell3 : List Stmt :=
  [Stmt.classDef false (blk
    [Stmt.funcDef (blk
      [Stmt.exprStmt [PyCall.superInit],
       Stmt.assign [PyCall.conv2dCtor],
       Stmt.assign [PyCall.conv2dCtor],
       Stmt.assign [PyCall.batchNorm2dCtor],
       Stmt.assign [PyCall.adaptiveAvgPool2dCtor],
       Stmt.assign [PyCall.linearCtor],
       Stmt.assign [PyCall.linearCtor],
       Stmt.assign [PyCall.linearCtor]]),
     Stmt.funcDef (blk
      [Stmt.assign [PyCall.moduleApply, PyCall.reluF],
       Stmt.assign [PyCall.moduleApply],
       Stmt.assign [PyCall.moduleApply, PyCall.reluF],
       Stmt.assign [PyCall.moduleApply, PyCall.flattenF],
       Stmt.assign [PyCall.moduleApply, PyCall.reluF],
       Stmt.assign [PyCall.moduleApply, PyCall.reluF],
       Stmt.assign [PyCall.moduleApply],
       Stmt.ret []])])]

/-- Cell 4: the tqdm import, `num_epochs = 5`, and the definition of
`train_and_eval` with its epoch loop, training loop and evaluation
loop. -/
def cell4 : List Stmt :=
  [Stmt.imports,
   Stmt.assign [],
   Stmt.funcDef (blk
    [Stmt.exprStmt [PyCall.manualSeedF],
     Stmt.assign [PyCall.cudaIsAvailable],
     Stmt.assign [PyCall.toDevice],
     Stmt.assign [PyCall.adamCtor],
     Stmt.forLoop [PyCall.rangeF] (blk
      [Stmt.exprStmt [PyCall.printF],
       Stmt.exprStmt [PyCall.modelTrainMode],
       Stmt.assign [PyCall.tqdmCtor],
       Stmt.forLoop [] (blk
        [Stmt.assign [PyCall.toDevice],
         Stmt.assign [PyCall.toDevice],
         Stmt.assign [PyCall.moduleApply],
         Stmt.assign [PyCall.crossEntropyF],
         Stmt.exprStmt [PyCall.itemM, PyCall.setPostfixStr],
         Stmt.exprStmt [PyCall.lossBackward],
         Stmt.exprStmt [PyCall.optStepM],
         Stmt.exprStmt [PyCall.optZeroGradM]]),
       Stmt.exprStmt [PyCall.modelEvalMode],
       Stmt.assign [],
       Stmt.assign [],
       Stmt.forLoop [] (blk
        [Stmt.assign [PyCall.toDevice],
         Stmt.assign [PyCall.toDevice],
         Stmt.assign [PyCall.moduleApply],
         Stmt.assign [PyCall.argmaxM, PyCall.eqCompare, PyCall.sumM, PyCall.itemM],
         Stmt.assign [PyCall.lenF]]),
       Stmt.assign [],
       Stmt.exprStmt [PyCall.printF]])])]

/-- Cell 5: the baseline `model = Net()` and training run. -/
def cell5 : List Stmt :=
  [Stmt.assign [PyCall.netCtor], Stmt.exprStmt [PyCall.trainAndEvalF]]

/-- Cell 6: the `composer.functional` import and the rebuilt dataloaders
with `cf.colout_batch` appended to the training transforms (referencing,
not calling, the function). -/
def cell6 : List Stmt :=
  [Stmt.imports,
   Stmt.assign [PyCall.toTensorT, PyCall.normalizeT],
   Stmt.assign [PyCall.coloutBatchRef],
   Stmt.assign [PyCall.composeT],
   Stmt.assign [PyCall.composeT],
   Stmt.assign [PyCall.cifar10Ctor],
   Stmt.assign [PyCall.dataLoaderCtor],
   Stmt.assign [PyCall.cifar10Ctor],
   Stmt.assign [PyCall.dataLoaderCtor]]

/-- Cell 7: the second `model = Net()` and training run. -/
def cell7 : List Stmt :=
  [Stmt.assign [PyCall.netCtor], Stmt.exprStmt [PyCall.trainAndEvalF]]

/-- Cell 8: `cf.apply_squeeze_excite(model, latent_channels=64, min_channels=16)`. -/
def cell8 : List Stmt := [Stmt.exprStmt [PyCall.applySqueezeExciteF]]

/-- Cell 9: the final training run on the patched model. -/
def cell9 : List Stmt := [Stmt.exprStmt [PyCall.trainAndEvalF]]

/-- Every code cell of the notebook, in order. -/
def notebookProgram : List Stmt :=
  cell1 ++ cell2 ++ cell3 ++ cell4 ++ cell5 ++ cell6 ++ cell7 ++ cell8 ++ cell9

/-- A library behavior whose `Net()` constructor raises (exception code
7) while every other call succeeds: a concrete failing run. -/
def failingNetEnv : PyCall → Except PyErr Unit
  | PyCall.netCtor => Except.error ⟨7⟩
  | _ => Except.ok ()

/-! ## Helper lemmas -/

/-- One training minibatch performs forward, loss, backward, step,
zero-grad, in program order. -/
theorem trainBatch_events {Inp Par Grad OptSt : Type} (F : Framework Inp Par Grad OptSt)
    (st : TrainState Par Grad OptSt) (b : TorchBatch Inp) :
    (trainBatch F st b).2 = specBatchOps := rfl

/-- The training phase logs the per-minibatch operations once per
minibatch, in order. -/
theorem trainPhase_events {Inp Par Grad OptSt : Type} (F : Framework Inp Par Grad OptSt)
    (train : List (TorchBatch Inp)) :
    ∀ st : TrainState Par Grad OptSt,
      (trainPhase F st train).2 = List.flatten (List.replicate train.length specBatchOps) := by
  induction train with
  | nil => intro st; rfl
  | cons b rest ih => intro st; simp [trainPhase, ih, List.replicate_succ, trainBatch_events]

/-- The evaluation loop logs one forward pass per test minibatch. -/
theorem evalLoop_events {Inp Par Grad OptSt : Type} (F : Framework Inp Par Grad OptSt)
    (test : List (TorchBatch Inp)) :
    ∀ (st : TrainState Par Grad OptSt) (nr es : Nat),
      (evalLoop F st nr es test).events = List.replicate test.length Ev.forwardEval := by
  induction test with
  | nil => intro st nr es; rfl
  | cons b rest ih => intro st nr es; simp [evalLoop, ih, List.replicate_succ]

/-- The evaluation loop returns the train state it was given. -/
theorem evalLoop_state {Inp Par Grad OptSt : Type} (F : Framework Inp Par Grad OptSt)
    (test : List (TorchBatch Inp)) :
    ∀ (st : TrainState Par Grad OptSt) (nr es : Nat),
      (evalLoop F st nr es test).state = st := by
  induction test with
  | nil => intro st nr es; rfl
  | cons b rest ih => intro st nr es; simp [evalLoop, ih]

/-- `num_right` after the evaluation loop: the start value plus each
batch's correct-prediction count. -/
theorem evalLoop_num_right {Inp Par Grad OptSt : Type} (F : Framework Inp Par Grad OptSt)
    (test : List (TorchBatch Inp)) :
    ∀ (st : TrainState Par Grad OptSt) (nr es : Nat),
      (evalLoop F st nr es test).num_right =
        nr + (test.map (fun b => batchNumRight F st.par b)).sum := by
  induction test with
  | nil => intro st nr es; simp [evalLoop]
  | cons b rest ih => intro st nr es; simp [evalLoop, ih]; ring

/-- `eval_size` after the evaluation loop: the start value plus each
batch's label count. -/
theorem evalLoop_eval_size {Inp Par Grad OptSt : Type} (F : Framework Inp Par Grad OptSt)
    (test : List (TorchBatch Inp)) :
    ∀ (st : TrainState Par Grad OptSt) (nr es : Nat),
      (evalLoop F st nr es test).eval_size = es + (test.map (fun b => b.y.length)).sum := by
  induction test with
  | nil => intro st nr es; simp [evalLoop]
  | cons b rest ih => intro st nr es; simp [evalLoop, ih]; ring

/-- A batch's correct-prediction count never exceeds its label count. -/
theorem batchNumRight_le {Inp Par Grad OptSt : Type} (F : Framework Inp Par Grad OptSt)
    (p : Par) (b : TorchBatch Inp) : batchNumRight F p b ≤ b.y.length := by
  refine le_trans (List.countP_le_length _) ?_
  simp [List.length_zip]

/-- When `num_right ≤ eval_size` and `eval_size` is positive, the
accuracy is defined and lies in `[0, 100]`. -/
theorem acc_percent_bounds (nr es : Nat) (hle : nr ≤ es) (hpos : 0 < es) :
    ∃ q : ℚ, acc_percent nr es = some q ∧ 0 ≤ q ∧ q ≤ 100 := by
  have hne : es ≠ 0 := Nat.pos_iff_ne_zero.mp hpos
  have hcast : (nr : ℚ) ≤ (es : ℚ) := by exact_mod_cast hle
  have hpos2 : (0 : ℚ) < (es : ℚ) := by exact_mod_cast hpos
  refine ⟨100 * (nr : ℚ) / (es : ℚ), ?_, ?_, ?_⟩
  · rw [acc_percent, if_neg hne]
  · apply div_nonneg _ (le_of_lt hpos2)
    positivity
  · rw [div_le_iff₀ hpos2]
    nlinarith

/-- The operations of one epoch. -/
theorem runEpoch_events {Inp Par Grad OptSt : Type} (F : Framework Inp Par Grad OptSt)
    (k : Nat) (st : TrainState Par Grad OptSt) (train test : List (TorchBatch Inp)) :
    (runEpoch F k st train test).2.2 = epochEvents k train.length test.length := by
  simp [runEpoch, epochEvents, trainPhase_events, evalLoop_events]

/-- The operations of the epoch loop: one epoch's worth per index, in
order. -/
theorem epochLoop_events {Inp Par Grad OptSt : Type} (F : Framework Inp Par Grad OptSt)
    (train test : List (TorchBatch Inp)) (ks : List Nat) :
    ∀ st : TrainState Par Grad OptSt,
      (epochLoop F train test ks st).2.2 =
        List.flatten (ks.map (fun k => epochEvents k train.length test.length)) := by
  induction ks with
  | nil => intro st; rfl
  | cons k ks ih => intro st; simp [epochLoop, ih, runEpoch_events]

/-- The epoch loop prints one accuracy line per epoch index. -/
theorem epochLoop_accs_length {Inp Par Grad OptSt : Type} (F : Framework Inp Par Grad OptSt)
    (train test : List (TorchBatch Inp)) (ks : List Nat) :
    ∀ st : TrainState Par Grad OptSt,
      (epochLoop F train test ks st).2.1.length = ks.length := by
  induction ks with
  | nil => intro st; rfl
  | cons k ks ih => intro st; simp [epochLoop, ih]

/-- An expression's exception is one its calls produced, unchanged. -/
theorem runCalls_error (env : PyCall → Except PyErr Unit) :
    ∀ (calls : List PyCall) (e : PyErr),
      runCalls env calls = Except.error e → ∃ c, env c = Except.error e := by
  intro calls
  induction calls with
  | nil => intro e h; simp [runCalls] at h
  | cons c rest ih =>
    intro e h
    cases hc : env c with
    | error e2 =>
      refine ⟨c, ?_⟩
      rw [hc]
      simp only [runCalls, hc, Except.bind] at h
      rw [h]
    | ok u =>
      simp only [runCalls, hc, Except.bind] at h
      exact ih e h

mutual

/-- In a statement free of `try/except` and `raise`, an exception of the
execution is one some library call produced, unchanged. -/
theorem runStmt_error_env (env : PyCall → Except PyErr Unit) (iters : Nat) :
    ∀ s : Stmt, stmtAny isHandling s = false →
      ∀ e : PyErr, runStmt env iters s = Except.error e → ∃ c, env c = Except.error e
  | Stmt.imports => by intro _ e h; simp [runStmt] at h
  | Stmt.assign calls => by
    intro _ e h; exact runCalls_error env calls e h
  | Stmt.exprStmt calls => by
    intro _ e h; exact runCalls_error env calls e h
  | Stmt.funcDef body => by intro _ e h; simp [runStmt] at h
  | Stmt.classDef b body => by
    intro hfree e h
    simp only [stmtAny, isHandling, isTryStmt, isRaiseStmt, Bool.false_or,
      Bool.or_eq_false_iff] at hfree
    exact runBlock_error_env env iters body hfree e (by simpa [runStmt] using h)
  | Stmt.forLoop ic body => by
    intro hfree e h
    simp only [stmtAny, isHandling, isTryStmt, isRaiseStmt, Bool.false_or,
      Bool.or_eq_false_iff] at hfree
    simp only [runStmt] at h
    cases hc : runCalls env ic with
    | error e2 =>
      rw [hc] at h
      simp only [Except.bind] at h
      cases h
      exact runCalls_error env ic e hc
    | ok u =>
      rw [hc] at h
      simp only [Except.bind] at h
      by_cases hi : iters = 0
      · rw [if_pos hi] at h; cases h
      · rw [if_neg hi] at h
        exact runBlock_error_env env iters body hfree e h
  | Stmt.whileLoop cc body => by
    intro hfree e h
    simp only [stmtAny, isHandling, isTryStmt, isRaiseStmt, Bool.false_or,
      Bool.or_eq_false_iff] at hfree
    simp only [runStmt] at h
    cases hc : runCalls env cc with
    | error e2 =>
      rw [hc] at h
      simp only [Except.bind] at h
      cases h
      exact runCalls_error env cc e hc
    | ok u =>
      rw [hc] at h
      simp only [Except.bind] at h
      by_cases hi : iters = 0
      · rw [if_pos hi] at h; cases h
      · rw [if_neg hi] at h
        exact runBlock_error_env env iters body hfree e h
  | Stmt.tryExcept body handler => by
    intro hfree _ _
    simp [stmtAny, isHandling, isTryStmt] at hfree
  | Stmt.raiseStmt => by
    intro hfree _ _
    simp [stmtAny, isHandling, isRaiseStmt] at hfree
  | Stmt.ret calls => by
    intro _ e h; exact runCalls_error env calls e h

/-- In a block free of `try/except` and `raise`, an exception of the
execution is one some library call produced, unchanged. -/
theorem runBlock_error_env (env : PyCall → Except PyErr Unit) (iters : Nat) :
    ∀ b : Block, blockAny isHandling b = false →
      ∀ e : PyErr, runBlock env iters b = Except.error e → ∃ c, env c = Except.error e
  | Block.nil => by intro _ e h; simp [runBlock] at h
  | Block.cons s rest => by
    intro hfree e h
    simp only [blockAny, Bool.or_eq_false_iff] at hfree
    simp only [runBlock] at h
    cases hs : runStmt env iters s with
    | error e2 =>
      rw [hs] at h
      simp only [Except.bind] at h
      cases h
      exact runStmt_error_env env iters s hfree.1 e hs
    | ok u =>
      rw [hs] at h
      simp only [Except.bind] at h
      exact runBlock_error_env env iters rest hfree.2 e h

end

/-! ## The claims -/

/-- C1: `cf.apply_squeeze_excite(model, latent_channels=64,
min_channels=16)` — which takes exactly the two numeric configuration
parameters its embedding takes — mutates the bound model object in
place: the surgery statement allocates nothing and leaves the `model`
binding untouched; afterwards the object holds its original layers as a
subsequence with a squeeze-excitation module inserted after the
qualifying convolution; and the notebook's subsequent
`train_and_eval(model, ...)` call receives the very same reference (the
trained references are `[0, 1, 1]`: each constructed `Net` is trained as
the object the binding then holds, the patched one being object `1`
again). -/
theorem C1_squeeze_excite_in_place :
    (∀ (st : NbState) (l m : Nat),
      (stepCell st (NbCell.callApplySqueezeExcite l m)).modelRef = st.modelRef ∧
      (stepCell st (NbCell.callApplySqueezeExcite l m)).heap.length = st.heap.length) ∧
    (nbStateAfter notebookCells).modelRef = some 1 ∧
    (nbStateAfter notebookCells).heap = [netLayers, apply_squeeze_excite 64 16 netLayers] ∧
    (nbStateAfter notebookCells).trainedRefs = [0, 1, 1] ∧
    netLayers.Sublist (apply_squeeze_excite 64 16 netLayers) ∧
    apply_squeeze_excite 64 16 netLayers =
      [Layer.conv2d 3 16, Layer.relu,
       Layer.conv2d 16 32, Layer.squeezeExcite 32 64, Layer.batchNorm2d 32, Layer.relu,
       Layer.adaptiveAvgPool2d, Layer.flatten,
       Layer.linear 32 128, Layer.relu,
       Layer.linear 128 64, Layer.relu,
       Layer.linear 64 10] := by
  refine ⟨fun st l m => ?_, ?_, ?_, ?_, ?_, ?_⟩
  · cases h : st.modelRef with
    | none => simp [stepCell, h]
    | some r => simp [stepCell, h]
  · decide
  · decide
  · decide
  · decide
  · decide

/-- C2: `train_and_eval` follows the conventional single-threaded
synchronous schedule the spec describes: its operation trace is exactly
the sequential concatenation, for each of `num_epochs` epochs, of the
per-minibatch operations of the training loader — and within each
minibatch the forward pass, the cross-entropy loss, the backpropagation
and the optimizer step occur in that order — followed by the evaluation
passes; being a single inductively-built list, the trace interleaves
nothing and cancels nothing. -/
theorem C2_sequential_training_schedule {Inp Par Grad OptSt : Type}
    (F : Framework Inp Par Grad OptSt) (num_epochs : Nat) (model : Par)
    (train_loader test_loader : List (TorchBatch Inp)) :
    (train_and_eval F num_epochs model train_loader test_loader).2.2 =
      sequentialTrainingTrace num_epochs train_loader.length test_loader.length ∧
    [Ev.forwardTrain, Ev.crossEntropyLoss, Ev.lossBackward, Ev.optStep].Sublist
      specBatchOps := by
  constructor
  · simp [train_and_eval, sequentialTrainingTrace, epochLoop_events]
  · decide

/-- C3: `cancel-in-progress` evaluates to true exactly when `github.ref`
is neither `refs/heads/main` nor `refs/heads/dev`; in particular a run on
main or dev is never cancelled by a newer commit in its concurrency
group, while on every other ref the in-progress run is cancelled. -/
theorem C3_cancel_in_progress_iff_not_main_dev :
    (∀ ref : String,
      cancelInProgress ref = true ↔ ref ≠ "refs/heads/main" ∧ ref ≠ "refs/heads/dev") ∧
    cancelInProgress ("refs/heads/main") = false ∧
    cancelInProgress ("refs/heads/dev") = false := by
  refine ⟨fun ref => ?_, by decide, by decide⟩
  simp [cancelInProgress, bne_iff_ne]

/-- C4 counterexample: the claimed declarative surface (a pull-request
trigger, the concurrency-cancellation group and the job matrix with its
secrets passthrough, and nothing else) is false of the file as written:
the workflow also declares a `workflow_dispatch` trigger (besides a
repository-owner guard and fixed job inputs). -/
theorem C4_surface_counterexample : claimedSurfaceC4 = False := by
  apply eq_false
  intro h
  have h2 := h.2.1
  simp [prGpu] at h2

/-- C4 amended: the declarative surface is a trigger on pull requests AND
a manual `workflow_dispatch` trigger, the concurrency-cancellation group,
a one-entry job matrix carrying the container image, test markers, pytest
command and package name, the `MCLOUD_API_KEY` secrets passthrough, plus
a repository-owner guard and the fixed job inputs `mcloud-timeout: 1500`
and `python-version: 3.9`. -/
theorem C4_surface_amended :
    prGpu.on_pull_request_target = true ∧
    prGpu.on_workflow_dispatch = true ∧
    prGpu.job_if_repository_owner = "mosaicml" ∧
    prGpu.matrix = [{ name := "gpu-3.10-2.1"
                      container := "mosaicml/pytorch:2.1.0_cu121-python3.10-ubuntu20.04"
                      markers := "not daily and not remote and gpu and (doctest or not doctest)"
                      pytest_command := "coverage run -m pytest"
                      composer_package_name := "mosaicml" }] ∧
    prGpu.secrets_passed = ["MCLOUD_API_KEY"] ∧
    prGpu.mcloud_timeout = 1500 ∧
    prGpu.python_version = "3.9" ∧
    prGpu.job_uses = "./.github/workflows/pytest-gpu.yaml" :=
  ⟨rfl, rfl, rfl, rfl, rfl, rfl, rfl, rfl⟩

/-- C5: in the composed training transform, `cf.colout_batch` sits after
`ToTensor` and `Normalize`; for every interpretation of the stages over
batches of tensors, the composed pipeline feeds the batch produced by
the shared stages to `colout_batch`, whose output batch is the
pipeline's output — the external function consumes a batch of input
tensors and returns the batch of transformed tensors. -/
theorem C5_colout_after_totensor_normalize :
    train_transforms =
      [Tf.toTensor, Tf.normalize [1/2, 1/2, 1/2] [1/2, 1/2, 1/2], Tf.coloutBatch] ∧
    ∀ (T : Type) (sem : TfSem T) (b : List T),
      composeRun sem train_transforms b = sem.coloutF (composeRun sem shared_transforms b) :=
  ⟨rfl, fun _ _ _ => rfl⟩

/-- C6 counterexample: two runs of `train_and_eval` with equal explicit
arguments but different module-level `num_epochs` bindings do not behave
identically: with the binding at `0` the run performs nothing after the
seed, with the binding at `1` it runs an epoch. -/
theorem C6_counterexample_num_epochs :
    ((train_and_eval unitFramework 0 () [] []).2.2 =
      (train_and_eval unitFramework 1 () [] []).2.2) = False :=
  eq_false (by decide)

/-- C6 amended: `train_and_eval` is not free of module-level state — it
reads the module-level `num_epochs` binding — but that binding is its
only such dependence in this model: the observable behavior is
determined by the explicit arguments together with `num_epochs`, which
fixes the number of accuracy lines printed, and the operation schedule
is a function of `num_epochs` and the loaders alone. -/
theorem C6_amended_num_epochs_dependency {Inp Par Grad OptSt : Type}
    (F : Framework Inp Par Grad OptSt) (num_epochs : Nat) (model : Par)
    (train_loader test_loader : List (TorchBatch Inp)) :
    ((train_and_eval F num_epochs model train_loader test_loader).2.1).length = num_epochs ∧
    (train_and_eval F num_epochs model train_loader test_loader).2.2 =
      sequentialTrainingTrace num_epochs train_loader.length test_loader.length := by
  constructor
  · simp [train_and_eval, epochLoop_accs_length]
  · simp [train_and_eval, sequentialTrainingTrace, epochLoop_events]

/-- C7: the notebook's cells contain no `try/except`, no `raise`, no
`while` loop (the shape a retry would take) and no class extending an
exception type; consequently — the transcription being free of handling
constructs — whenever the execution of the whole program fails under any
behavior of the called library functions, the failure is exactly the
exception some library call produced, propagated unchanged by the
notebook's own code. -/
theorem C7_no_handling_failures_propagate :
    blockAny isTryStmt (blk notebookProgram) = false ∧
    blockAny isRaiseStmt (blk notebookProgram) = false ∧
    blockAny isWhileStmt (blk notebookProgram) = false ∧
    blockAny isExceptionClass (blk notebookProgram) = false ∧
    ∀ (env : PyCall → Except PyErr Unit) (iters : Nat) (e : PyErr),
      runBlock env iters (blk notebookProgram) = Except.error e →
      ∃ c, env c = Except.error e := by
  refine ⟨by decide, by decide, by decide, by decide, fun env iters e h => ?_⟩
  exact runBlock_error_env env iters (blk notebookProgram) (by decide) e h

/-- Under a behavior whose `Net()` raises, the notebook's execution
fails with exactly that exception — the propagation statement is not
vacuous. -/
theorem notebook_propagates_net_failure :
    runBlock failingNetEnv 1 (blk notebookProgram) = Except.error ⟨7⟩ := rfl

/-- C9: whenever the test loader yields at least one batch with at least
one example, the end-of-epoch counters satisfy `eval_size > 0`, the
division `acc_percent = 100 * num_right / eval_size` is defined, and the
printed accuracy lies in `[0, 100]`; the precondition is required: an
empty test loader leaves `eval_size = 0`, on which the division is a
`ZeroDivisionError` (modelled as `none`). -/
theorem C9_eval_accuracy_welldefined {Inp Par Grad OptSt : Type}
    (F : Framework Inp Par Grad OptSt) (st : TrainState Par Grad OptSt)
    (test : List (TorchBatch Inp)) (h : ∃ b, b ∈ test ∧ b.y ≠ []) :
    0 < (evalLoop F st 0 0 test).eval_size ∧
    (∃ q : ℚ,
      acc_percent (evalLoop F st 0 0 test).num_right
        (evalLoop F st 0 0 test).eval_size = some q ∧
      0 ≤ q ∧ q ≤ 100) ∧
    (evalLoop F st 0 0 ([] : List (TorchBatch Inp))).eval_size = 0 ∧
    acc_percent 0 0 = none := by
  obtain ⟨b, hb, hy⟩ := h
  have hlen : 0 < b.y.length := List.length_pos.mpr hy
  have hes : (evalLoop F st 0 0 test).eval_size =
      (test.map (fun bb => bb.y.length)).sum := by
    simp [evalLoop_eval_size]
  have hnr : (evalLoop F st 0 0 test).num_right =
      (test.map (fun bb => batchNumRight F st.par bb)).sum := by
    simp [evalLoop_num_right]
  have hmem : b.y.length ∈ test.map (fun bb => bb.y.length) :=
    List.mem_map_of_mem _ hb
  have hpos : 0 < (test.map (fun bb => bb.y.length)).sum :=
    lt_of_lt_of_le hlen (List.single_le_sum (fun _ _ => Nat.zero_le _) _ hmem)
  have hle : (test.map (fun bb => batchNumRight F st.par bb)).sum ≤
      (test.map (fun bb => bb.y.length)).sum :=
    List.sum_le_sum (fun i _ => batchNumRight_le F st.par i)
  refine ⟨by rw [hes]; exact hpos, ?_, rfl, rfl⟩
  rw [hnr, hes]
  exact acc_percent_bounds _ _ hle hpos

/-- C9 witness: a one-batch, one-example test loader makes the division
defined with accuracy in range, and an empty loader leaves
`eval_size = 0`. -/
theorem C9_witness_nonempty_batch :
    0 < (evalLoop unitFramework ⟨(), (), none⟩ 0 0 [⟨[()], [0]⟩]).eval_size ∧
    (∃ q : ℚ,
      acc_percent (evalLoop unitFramework ⟨(), (), none⟩ 0 0 [⟨[()], [0]⟩]).num_right
        (evalLoop unitFramework ⟨(), (), none⟩ 0 0 [⟨[()], [0]⟩]).eval_size = some q ∧
      0 ≤ q ∧ q ≤ 100) ∧
    (evalLoop unitFramework ⟨(), (), none⟩ 0 0 ([] : List (TorchBatch Unit))).eval_size = 0 ∧
    acc_percent 0 0 = none :=
  C9_eval_accuracy_welldefined unitFramework ⟨(), (), none⟩ [⟨[()], [0]⟩]
    ⟨⟨[()], [0]⟩, by simp, by simp⟩

/-- C10: the evaluation loop returns the train state — parameters,
optimizer state and gradient buffer — it was handed, performing only
forward passes (no backward, no optimizer step appears among its
events); hence the state an epoch hands to the next is exactly the state
its training phase produced. -/
theorem C10_eval_phase_frame {Inp Par Grad OptSt : Type}
    (F : Framework Inp Par Grad OptSt) (st : TrainState Par Grad OptSt)
    (nr es k : Nat) (train test : List (TorchBatch Inp)) :
    (evalLoop F st nr es test).state = st ∧
    (evalLoop F st nr es test).events = List.replicate test.length Ev.forwardEval ∧
    (runEpoch F k st train test).1 = (trainPhase F st train).1 := by
  refine ⟨evalLoop_state F test st nr es, evalLoop_events F test st nr es, ?_⟩
  simp [runEpoch, evalLoop_state]

end Spec2Proof
